import Mathlib

/-!
Shallow embedding of `src/crates/flowistry_pdg_construction/src/body_cache.rs`
(the cross-unit analysis-artifact cache of the paralegal repository).

Pure data (MIR bodies, borrowck facts, paths) is modelled with concrete
inductive types; host-compiler queries (`TyCtxt`) become an explicit
environment record; the session-scoped mutable cache becomes explicit
state passing; panics become `Except`/`Option` error results.
-/

namespace BodyCacheModel

/-- Region variables (`RegionVid`), indices into the borrowck engine's
region inference; modelled as naturals. -/
abbrev RegionVid := Nat

/-- `ClearCrossCrate` from `rustc_middle`: data that is either cleared for
cross-crate encoding or set to a value. -/
inductive ClearCrossCrate (α : Type) where
  | Clear : ClearCrossCrate α
  | Set : α → ClearCrossCrate α
deriving DecidableEq, Repr

/-- A source scope of a MIR body (`SourceScopeData`): the cross-crate
incompatible part is `local_data`; the other fields (span, parent scope)
are kept abstract as naturals. -/
structure SourceScope where
  span : Nat
  parent_scope : Option Nat
  local_data : ClearCrossCrate Nat
deriving DecidableEq, Repr

/-- Statement kinds of a MIR body, abstracted to the distinction the
sanitizer cares about: `FakeRead` (diagnostic-only), `Nop`, and every
other kind (payload kept abstract). -/
inductive StatementKind where
  | FakeRead : Nat → StatementKind
  | Nop : StatementKind
  | Other : Nat → StatementKind
deriving DecidableEq, Repr

/-- A MIR statement: source info plus kind. -/
structure Statement where
  source_info : Nat
  kind : StatementKind
deriving DecidableEq, Repr

/-- `Statement::make_nop`: replace the kind by `Nop`, keeping the rest. -/
def Statement.make_nop (s : Statement) : Statement :=
  { s with kind := StatementKind.Nop }

/-- One basic block: its statements and its terminator (abstract). -/
structure BasicBlockData where
  statements : List Statement
  terminator : Nat
deriving DecidableEq, Repr

/-- A MIR `Body`: source scopes plus basic blocks. -/
structure Body where
  source_scopes : List SourceScope
  basic_blocks : List BasicBlockData
deriving DecidableEq, Repr

/-- Whether a statement kind is a `FakeRead` (the pattern test
`matches!(stmt.kind, StatementKind::FakeRead(_))`). -/
def StatementKind.isFakeRead : StatementKind → Bool
  | StatementKind.FakeRead _ => true
  | _ => false

/-- The sanitizer `clean_undecodable_data_from_body`: clears the
`local_data` of every source scope and turns every `FakeRead` statement
into a `Nop`, in place. -/
def clean_undecodable_data_from_body (body : Body) : Body :=
  { source_scopes :=
      body.source_scopes.map (fun scope =>
        { scope with local_data := ClearCrossCrate.Clear }),
    basic_blocks :=
      body.basic_blocks.map (fun bb =>
        { bb with statements :=
            bb.statements.map (fun stmt =>
              if stmt.kind.isFakeRead then stmt.make_nop else stmt) }) }

/-- The borrowck fact subset flowistry needs (`FlowistryFacts`). -/
structure FlowistryFacts where
  subset_base : List (RegionVid × RegionVid)
deriving DecidableEq, Repr

/-- Raw polonius input facts as returned by the borrowck engine: the
`subset_base` relation with its third, point-of-inference component. -/
structure PoloniusInput where
  subset_base : List (RegionVid × RegionVid × Nat)
deriving DecidableEq, Repr

/-- Result of `get_body_with_borrowck_facts`: a body plus optional raw
input facts. -/
structure BodyWithBorrowckFacts where
  body : Body
  input_facts : Option PoloniusInput
deriving DecidableEq, Repr

/-- The projection `.iter().map(|&(v1, v2, _)| (v1.into(), v2.into()))`
performed by `CachedBody::retrieve` on the raw `subset_base` facts,
written as the iterator's element-by-element traversal. -/
def projectSubsetBase : List (RegionVid × RegionVid × Nat) → List (RegionVid × RegionVid)
  | [] => []
  | (v1, v2, _) :: rest => (v1, v2) :: projectSubsetBase rest

/-- A cached body: the sanitized body plus the projected facts
(`CachedBody`). -/
structure CachedBody where
  body : Body
  input_facts : FlowistryFacts
deriving DecidableEq, Repr

/-- A file-system path: a directory part (abstract) plus a file name,
as a character list. -/
structure FsPath where
  dir : List Char
  fileName : List Char
deriving DecidableEq, Repr

/-- Replace the extension of a file name (`Path::with_extension`): drop
everything after the last dot (drop nothing when no dot is present) and
append a dot and the new extension. -/
def setExt (file ext : List Char) : List Char :=
  match (file.reverse.dropWhile (fun c => c ≠ '.')) with
  | [] => file ++ '.' :: ext
  | _ :: stemRev => stemRev.reverse ++ '.' :: ext

/-- `Path::with_extension` on our path model. -/
def FsPath.with_extension (p : FsPath) (ext : List Char) : FsPath :=
  { p with fileName := setExt p.fileName ext }

/-- The map from item index to cached body stored per crate
(`BodyMap = FxHashMap<DefIndex, CachedBody>`), modelled as an
association list. -/
abbrev BodyMap := List (Nat × CachedBody)

/-- The host-compiler environment (`TyCtxt`) as the cache sees it:
the borrowck engine, the timing oracle for retrievals, and the
output-path / file-system queries. -/
structure TyCtxt where
  /-- `get_body_with_borrowck_facts(tcx, id, ConsumerOptions::PoloniusInputFacts)`. -/
  engine : Nat → BodyWithBorrowckFacts
  /-- Wall-clock time one retrieval of this local item takes (the
  `start.elapsed()` measurement), in abstract ticks. -/
  retrieveElapsed : Nat → Nat
  /-- `TyCtxt::crate_extern_paths` for a foreign crate number. -/
  crate_extern_paths : Nat → List FsPath
  /-- The file stem of `tcx.output_filenames(()).with_extension(ext)`
  (the host's default output stem, `<crate_name>-<hash>`). -/
  defaultStem : List Char
  /-- The parent directory of the host's default output file. -/
  outDir : List Char
  /-- `Path::exists`. -/
  fileExists : FsPath → Bool
  /-- `decode_from_file`: `some` on decode success. -/
  decodeFile : FsPath → Option BodyMap

/-- `LOCAL_CRATE`: the current crate is always crate number zero. -/
def LOCAL_CRATE : Nat := 0

/-- `CachedBody::retrieve`: run the borrowck engine, sanitize the body,
project the raw facts; `none` models the fatal
`expect("polonius input must exist")` when the engine produced no facts. -/
def CachedBody.retrieve (tcx : TyCtxt) (local_def_id : Nat) : Option CachedBody :=
  let body_with_facts := tcx.engine local_def_id
  let cleaned := clean_undecodable_data_from_body body_with_facts.body
  match body_with_facts.input_facts with
  | none => none
  | some raw =>
      some { body := cleaned,
             input_facts := { subset_base := projectSubsetBase raw.subset_base } }

/-- The extension of this system's artifact files
(`INTERMEDIATE_ARTIFACT_EXT = "bwbf"`). -/
def INTERMEDIATE_ARTIFACT_EXT : List Char := ['b', 'w', 'b', 'f']

/-- The conventional unit-name file prefix that the host uses for library
outputs. -/
def libPfx : List Char := ['l', 'i', 'b']

/-- `intermediate_out_dir`: the canonical artifact path of the current
crate for a given extension.  Takes the host's default output file for
that extension and prepends `"lib"` to its file name unless it already
starts with `"lib"`. -/
def intermediate_out_dir (tcx : TyCtxt) (ext : List Char) : FsPath :=
  let rustc_out_file : FsPath :=
    { dir := tcx.outDir, fileName := tcx.defaultStem ++ '.' :: ext }
  let file := rustc_out_file.fileName
  let file := if libPfx.isPrefixOf file then file else libPfx ++ file
  { dir := rustc_out_file.dir, fileName := file }

/-- `local_or_remote_paths`: candidate artifact paths for a crate.  For
the local crate, only its canonical output path; otherwise the host's
extern paths with the extension rewritten, then the canonical output
path pushed at the end. -/
def local_or_remote_paths (krate : Nat) (tcx : TyCtxt) (ext : List Char) : List FsPath :=
  if krate == LOCAL_CRATE then
    [intermediate_out_dir tcx ext]
  else
    let result := (tcx.crate_extern_paths krate).map (fun p => p.with_extension ext)
    result ++ [intermediate_out_dir tcx ext]

/-- The two fatal conditions of `load_body_and_facts`: the
`decode_from_file(...).unwrap()` panic, and the
`panic!("No facts for {krate:?} found at any path tried: {paths:?}")`
carrying the crate and every candidate path. -/
inductive LoadError where
  | decodeFailed : FsPath → LoadError
  | noPathFound : Nat → List FsPath → LoadError
deriving DecidableEq, Repr

/-- `load_body_and_facts`: walk the candidate paths in order, skip those
that do not exist, decode the first existing one; fail fatally when no
path exists or the decode fails. -/
def load_body_and_facts (tcx : TyCtxt) (krate : Nat) : Except LoadError BodyMap :=
  let paths := local_or_remote_paths krate tcx INTERMEDIATE_ARTIFACT_EXT
  match paths.find? (fun p => tcx.fileExists p) with
  | some path =>
      match tcx.decodeFile path with
      | some data => Except.ok data
      | none => Except.error (LoadError.decodeFailed path)
  | none => Except.error (LoadError.noPathFound krate paths)

/-- How many `Path::exists` probes the loader's loop performs: one per
candidate up to and including the first existing one. -/
def probesCount (tcx : TyCtxt) : List FsPath → Nat
  | [] => 0
  | p :: rest => if tcx.fileExists p then 1 else 1 + probesCount tcx rest

/-- A `DefId`: crate number plus in-crate item index. -/
structure DefId where
  krate : Nat
  index : Nat
deriving DecidableEq, Repr

/-- `DefId::as_local`: the in-crate index when the crate is the local
one. -/
def DefId.as_local (d : DefId) : Option Nat :=
  if d.krate == LOCAL_CRATE then some d.index else none

/-- The mutable state of a `BodyCache`: the foreign per-crate cache, the
local per-item cache (both `rustc_utils` `Cache`s, modelled as
association lists with newest entry first) and the retrieval timer. -/
structure CacheState where
  cache : List (Nat × BodyMap)
  local_cache : List (Nat × CachedBody)
  timer : Nat
deriving DecidableEq, Repr

/-- The fresh cache produced by `BodyCache::new`. -/
def CacheState.new : CacheState :=
  { cache := [], local_cache := [], timer := 0 }

/-- Observable effort of one `get` call: how many times the borrowck
engine ran (`CachedBody::retrieve`), how many file decodes and how many
file-existence probes happened. -/
structure Counters where
  retrievals : Nat
  decodes : Nat
  probes : Nat
deriving DecidableEq, Repr

/-- The fatal conditions of `BodyCache::get`: a retrieval panic
(engine produced no facts), a loader panic, or the
`expect("Invariant broken, body for this id should exist")` when the
loaded bundle lacks the item. -/
inductive GetError where
  | retrieveFailed : GetError
  | load : LoadError → GetError
  | missingBody : GetError
deriving DecidableEq, Repr

/-- `BodyCache::get`: serve the body from the cache or compute/load it.
Local items memoize `CachedBody::retrieve` in `local_cache` (timing the
retrieval); foreign items memoize a whole decoded bundle per crate in
`cache`, then index it by the item's `DefIndex`.  Returns the body, the
updated state, and the effort counters of this call. -/
def BodyCache.get (tcx : TyCtxt) (st : CacheState) (key : DefId) :
    Except GetError (CachedBody × CacheState × Counters) :=
  match key.as_local with
  | some localIdx =>
      match st.local_cache.lookup localIdx with
      | some body => Except.ok (body, st, ⟨0, 0, 0⟩)
      | none =>
          match CachedBody.retrieve tcx localIdx with
          | none => Except.error GetError.retrieveFailed
          | some res =>
              Except.ok (res,
                { st with
                  local_cache := (localIdx, res) :: st.local_cache,
                  timer := st.timer + tcx.retrieveElapsed localIdx },
                ⟨1, 0, 0⟩)
  | none =>
      match st.cache.lookup key.krate with
      | some bodies =>
          match bodies.lookup key.index with
          | some body => Except.ok (body, st, ⟨0, 0, 0⟩)
          | none => Except.error GetError.missingBody
      | none =>
          match load_body_and_facts tcx key.krate with
          | Except.error e => Except.error (GetError.load e)
          | Except.ok bodies =>
              let st' := { st with cache := (key.krate, bodies) :: st.cache }
              let probes :=
                probesCount tcx (local_or_remote_paths key.krate tcx INTERMEDIATE_ARTIFACT_EXT)
              match bodies.lookup key.index with
              | some body => Except.ok (body, st', ⟨0, 1, probes⟩)
              | none => Except.error GetError.missingBody

/-! ### Helper lemmas -/

/-- The recursive projection agrees with the specification-level map that
keeps the first two components of each tuple. -/
theorem projectSubsetBase_eq_map (l : List (RegionVid × RegionVid × Nat)) :
    projectSubsetBase l = l.map (fun t => (t.1, t.2.1)) := by
  induction l with
  | nil => rfl
  | cons hd tl ih =>
      obtain ⟨v1, v2, p⟩ := hd
      simp [projectSubsetBase, ih]

/-- Sanitizing a statement twice is the same as sanitizing it once. -/
theorem sanitizeStmt_idem (s : Statement) :
    (fun stmt : Statement => if stmt.kind.isFakeRead then stmt.make_nop else stmt)
      ((fun stmt : Statement => if stmt.kind.isFakeRead then stmt.make_nop else stmt) s) =
    (fun stmt : Statement => if stmt.kind.isFakeRead then stmt.make_nop else stmt) s := by
  obtain ⟨info, k⟩ := s
  cases k <;> simp [Statement.make_nop, StatementKind.isFakeRead]

/-- C6: applying the sanitizer twice to a program representation yields
the representation obtained by applying it once. -/
theorem sanitizer_idempotent (body : Body) :
    clean_undecodable_data_from_body (clean_undecodable_data_from_body body) =
      clean_undecodable_data_from_body body := by
  unfold clean_undecodable_data_from_body
  simp only [List.map_map, Body.mk.injEq]
  refine ⟨List.map_congr_left fun sc _ => rfl, List.map_congr_left fun bb _ => ?_⟩
  simp only [Function.comp_apply]
  simp only [List.map_map]
  exact congrArg (fun stmts => { bb with statements := stmts })
    (List.map_congr_left fun s _ => sanitizeStmt_idem s)

/-- C9: the sanitizer preserves the control-flow-graph shape: block
count, per-block statement count and every terminator are unchanged;
fake reads become no-ops in place; every other statement is untouched;
scopes only have their local debug data cleared. -/
theorem sanitizer_frame (body : Body) :
    (clean_undecodable_data_from_body body).basic_blocks.length =
        body.basic_blocks.length ∧
    (clean_undecodable_data_from_body body).source_scopes.length =
        body.source_scopes.length ∧
    (∀ i (h1 : i < body.basic_blocks.length)
        (h2 : i < (clean_undecodable_data_from_body body).basic_blocks.length),
      ((clean_undecodable_data_from_body body).basic_blocks.get ⟨i, h2⟩).terminator =
          (body.basic_blocks.get ⟨i, h1⟩).terminator ∧
      ((clean_undecodable_data_from_body body).basic_blocks.get ⟨i, h2⟩).statements.length =
          (body.basic_blocks.get ⟨i, h1⟩).statements.length ∧
      (∀ j (hj1 : j < (body.basic_blocks.get ⟨i, h1⟩).statements.length)
          (hj2 : j < ((clean_undecodable_data_from_body body).basic_blocks.get
              ⟨i, h2⟩).statements.length),
        (((body.basic_blocks.get ⟨i, h1⟩).statements.get ⟨j, hj1⟩).kind.isFakeRead = true →
          ((clean_undecodable_data_from_body body).basic_blocks.get
              ⟨i, h2⟩).statements.get ⟨j, hj2⟩ =
            ((body.basic_blocks.get ⟨i, h1⟩).statements.get ⟨j, hj1⟩).make_nop) ∧
        (((body.basic_blocks.get ⟨i, h1⟩).statements.get ⟨j, hj1⟩).kind.isFakeRead = false →
          ((clean_undecodable_data_from_body body).basic_blocks.get
              ⟨i, h2⟩).statements.get ⟨j, hj2⟩ =
            (body.basic_blocks.get ⟨i, h1⟩).statements.get ⟨j, hj1⟩))) ∧
    (∀ k (hk1 : k < body.source_scopes.length)
        (hk2 : k < (clean_undecodable_data_from_body body).source_scopes.length),
      (clean_undecodable_data_from_body body).source_scopes.get ⟨k, hk2⟩ =
        { body.source_scopes.get ⟨k, hk1⟩ with local_data := ClearCrossCrate.Clear }) := by
  refine ⟨?_, ?_, ?_, ?_⟩
  · simp [clean_undecodable_data_from_body]
  · simp [clean_undecodable_data_from_body]
  · intro i h1 h2
    refine ⟨?_, ?_, ?_⟩
    · simp [clean_undecodable_data_from_body]
    · simp [clean_undecodable_data_from_body]
    · intro j hj1 hj2
      constructor
      · intro hfr
        simp only [clean_undecodable_data_from_body, List.get_eq_getElem,
          List.getElem_map] at hj2 ⊢
        simp only [List.get_eq_getElem] at hfr
        simp [hfr]
      · intro hfr
        simp only [clean_undecodable_data_from_body, List.get_eq_getElem,
          List.getElem_map] at hj2 ⊢
        simp only [List.get_eq_getElem] at hfr
        simp [hfr]
  · intro k hk1 hk2
    simp [clean_undecodable_data_from_body]

/-- C3: the fact projection keeps exactly the first two components of
every raw fact tuple, in order and multiplicity, discarding the third. -/
theorem retrieve_fact_projection (tcx : TyCtxt) (id : Nat) (raw : PoloniusInput)
    (h : (tcx.engine id).input_facts = some raw) :
    ∃ cb, CachedBody.retrieve tcx id = some cb ∧
      cb.input_facts.subset_base = raw.subset_base.map (fun t => (t.1, t.2.1)) := by
  simp only [CachedBody.retrieve, h]
  exact ⟨_, rfl, projectSubsetBase_eq_map raw.subset_base⟩

/-- C7: when the engine returns no fact set, retrieval stops fatally,
and a returned artifact always stems from an engine-produced fact set. -/
theorem retrieve_fatal_without_facts (tcx : TyCtxt) (id : Nat) :
    ((tcx.engine id).input_facts = none → CachedBody.retrieve tcx id = none) ∧
    (∀ cb, CachedBody.retrieve tcx id = some cb →
      ∃ raw, (tcx.engine id).input_facts = some raw ∧
        cb.input_facts.subset_base = projectSubsetBase raw.subset_base) := by
  constructor
  · intro hn
    simp only [CachedBody.retrieve, hn]
  · intro cb hcb
    simp only [CachedBody.retrieve] at hcb
    cases hfacts : (tcx.engine id).input_facts with
    | none => rw [hfacts] at hcb; simp at hcb
    | some raw =>
        rw [hfacts] at hcb
        simp only [Option.some.injEq] at hcb
        exact ⟨raw, rfl, by rw [← hcb]⟩

/-- Whether the full default file name (stem, dot, extension) starts
with `"lib"` is decided by the stem alone, since `'.'` occurs in none of
the first three positions of a `"lib"`-headed name. -/
theorem libPfx_isPrefixOf_stem_ext (stem ext : List Char) :
    libPfx.isPrefixOf (stem ++ '.' :: ext) = libPfx.isPrefixOf stem := by
  match stem with
  | [] => simp [libPfx, List.isPrefixOf]
  | [a] => simp [libPfx, List.isPrefixOf]
  | [a, b] => simp [libPfx, List.isPrefixOf]
  | a :: b :: c :: rest => simp [libPfx, List.isPrefixOf]

/-- C5: the canonical artifact file name is the host's default stem plus
extension, with `"lib"` prepended exactly when the stem does not already
start with `"lib"`; either way the result carries the `"lib"` prefix. -/
theorem intermediate_out_dir_lib_normalized (tcx : TyCtxt) (ext : List Char) :
    ((intermediate_out_dir tcx ext).fileName =
      if libPfx.isPrefixOf tcx.defaultStem then tcx.defaultStem ++ '.' :: ext
      else libPfx ++ tcx.defaultStem ++ '.' :: ext) ∧
    libPfx.isPrefixOf (intermediate_out_dir tcx ext).fileName = true := by
  have hbr := libPfx_isPrefixOf_stem_ext tcx.defaultStem ext
  constructor
  · simp only [intermediate_out_dir, hbr, List.append_assoc]
  · simp only [intermediate_out_dir, hbr]
    by_cases h : libPfx.isPrefixOf tcx.defaultStem
    · simp only [h, if_true]
      rw [← libPfx_isPrefixOf_stem_ext tcx.defaultStem ext] at h
      exact h
    · simp only [h, if_false]
      rw [List.isPrefixOf_iff_prefix]
      exact List.prefix_append _ _

/-- C4: for the local crate the only candidate is the canonical output
path; for a foreign crate the candidates are every host-reported extern
location with the extension rewritten, with the canonical output path
appended last as fallback. -/
theorem candidate_paths_spec (krate : Nat) (tcx : TyCtxt) (ext : List Char) :
    (krate = LOCAL_CRATE →
      local_or_remote_paths krate tcx ext = [intermediate_out_dir tcx ext]) ∧
    (krate ≠ LOCAL_CRATE →
      (local_or_remote_paths krate tcx ext).length =
          (tcx.crate_extern_paths krate).length + 1 ∧
      (∀ i (h1 : i < (tcx.crate_extern_paths krate).length)
          (h2 : i < (local_or_remote_paths krate tcx ext).length),
        (local_or_remote_paths krate tcx ext).get ⟨i, h2⟩ =
          ((tcx.crate_extern_paths krate).get ⟨i, h1⟩).with_extension ext) ∧
      (local_or_remote_paths krate tcx ext).getLast? =
          some (intermediate_out_dir tcx ext)) := by
  constructor
  · intro h
    simp [local_or_remote_paths, h]
  · intro h
    have hbeq : (krate == LOCAL_CRATE) = false := by
      simp [Nat.beq_eq_true_eq]
      exact h
    refine ⟨?_, ?_, ?_⟩
    · simp [local_or_remote_paths, hbeq]
    · intro i h1 h2
      simp only [local_or_remote_paths, hbeq, if_false, Bool.false_eq_true,
        List.get_eq_getElem]
      rw [List.getElem_append_left (by simpa using h1)]
      simp
    · simp [local_or_remote_paths, hbeq]

/-- `find?` returns the element at the first index whose predicate
holds. -/
theorem find?_eq_of_first {α : Type} (p : α → Bool) (l : List α) (i : Nat)
    (h : i < l.length) (hp : p l[i] = true)
    (hbefore : ∀ j, (hj : j < i) → p l[j] = false) :
    l.find? p = some l[i] := by
  induction l generalizing i with
  | nil => exact absurd h (Nat.not_lt_zero i)
  | cons hd tl ih =>
      cases i with
      | zero =>
          simp only [List.getElem_cons_zero] at hp
          simp [List.find?_cons, hp]
      | succ n =>
          have hhd : p hd = false := by
            have := hbefore 0 (Nat.succ_pos n)
            simpa using this
          simp only [List.getElem_cons_succ] at hp ⊢
          rw [List.find?_cons, hhd]
          exact ih n (Nat.lt_of_succ_lt_succ h) hp
            (fun j hj => by
              have := hbefore (j + 1) (Nat.succ_lt_succ hj)
              simpa using this)

/-- C8: the loader decodes the first candidate path that exists, and
when no candidate exists it fails fatally carrying the crate and every
path attempted. -/
theorem load_first_existing_or_fatal (tcx : TyCtxt) (krate : Nat) :
    ((∀ p ∈ local_or_remote_paths krate tcx INTERMEDIATE_ARTIFACT_EXT,
        tcx.fileExists p = false) →
      load_body_and_facts tcx krate =
        Except.error (LoadError.noPathFound krate
          (local_or_remote_paths krate tcx INTERMEDIATE_ARTIFACT_EXT))) ∧
    (∀ i (h : i < (local_or_remote_paths krate tcx INTERMEDIATE_ARTIFACT_EXT).length),
      tcx.fileExists (local_or_remote_paths krate tcx INTERMEDIATE_ARTIFACT_EXT)[i] = true →
      (∀ j, (hj : j < i) →
        tcx.fileExists (local_or_remote_paths krate tcx INTERMEDIATE_ARTIFACT_EXT)[j] =
          false) →
      ∀ d,
        tcx.decodeFile (local_or_remote_paths krate tcx INTERMEDIATE_ARTIFACT_EXT)[i] =
          some d →
        load_body_and_facts tcx krate = Except.ok d) := by
  constructor
  · intro hnone
    have hfind :
        (local_or_remote_paths krate tcx INTERMEDIATE_ARTIFACT_EXT).find?
          (fun p => tcx.fileExists p) = none := by
      rw [List.find?_eq_none]
      intro p hp
      simp [hnone p hp]
    simp only [load_body_and_facts, hfind]
  · intro i h hex hbefore d hdec
    have hfind :
        (local_or_remote_paths krate tcx INTERMEDIATE_ARTIFACT_EXT).find?
          (fun p => tcx.fileExists p) =
          some (local_or_remote_paths krate tcx INTERMEDIATE_ARTIFACT_EXT)[i] :=
      find?_eq_of_first _ _ i h hex hbefore
    simp only [load_body_and_facts, hfind, hdec]

/-- `BodyCache.get` on a local key reduces to the local-cache branch. -/
theorem get_local_eq (tcx : TyCtxt) (st : CacheState) (key : DefId)
    (hl : key.krate = LOCAL_CRATE) :
    BodyCache.get tcx st key =
      match st.local_cache.lookup key.index with
      | some body => Except.ok (body, st, ⟨0, 0, 0⟩)
      | none =>
          match CachedBody.retrieve tcx key.index with
          | none => Except.error GetError.retrieveFailed
          | some res =>
              Except.ok (res,
                { st with
                  local_cache := (key.index, res) :: st.local_cache,
                  timer := st.timer + tcx.retrieveElapsed key.index },
                ⟨1, 0, 0⟩) := by
  simp [BodyCache.get, DefId.as_local, hl]

/-- `BodyCache.get` on a foreign key reduces to the per-crate bundle
branch. -/
theorem get_foreign_eq (tcx : TyCtxt) (st : CacheState) (key : DefId)
    (hf : key.krate ≠ LOCAL_CRATE) :
    BodyCache.get tcx st key =
      match st.cache.lookup key.krate with
      | some bodies =>
          match bodies.lookup key.index with
          | some body => Except.ok (body, st, ⟨0, 0, 0⟩)
          | none => Except.error GetError.missingBody
      | none =>
          match load_body_and_facts tcx key.krate with
          | Except.error e => Except.error (GetError.load e)
          | Except.ok bodies =>
              match bodies.lookup key.index with
              | some body =>
                  Except.ok (body,
                    { st with cache := (key.krate, bodies) :: st.cache },
                    ⟨0, 1, probesCount tcx
                        (local_or_remote_paths key.krate tcx INTERMEDIATE_ARTIFACT_EXT)⟩)
              | none => Except.error GetError.missingBody := by
  have hbeq : (key.krate == LOCAL_CRATE) = false := by
    simp [Nat.beq_eq_true_eq]
    exact hf
  simp [BodyCache.get, DefId.as_local, hbeq]

/-- C1: two successive `get` calls for the same local item retrieve at
most once — exactly once from a cold cache — the second call is a pure
cache hit (state unchanged, zero retrievals), and both calls return the
same artifact. -/
theorem get_local_memoized (tcx : TyCtxt) (st : CacheState) (key : DefId)
    (hl : key.krate = LOCAL_CRATE)
    (b1 b2 : CachedBody) (st1 st2 : CacheState) (c1 c2 : Counters)
    (h1 : BodyCache.get tcx st key = Except.ok (b1, st1, c1))
    (h2 : BodyCache.get tcx st1 key = Except.ok (b2, st2, c2)) :
    (st.local_cache.lookup key.index = none → c1.retrievals = 1) ∧
    c2.retrievals = 0 ∧ b2 = b1 ∧ st2 = st1 := by
  rw [get_local_eq tcx st key hl] at h1
  rw [get_local_eq tcx st1 key hl] at h2
  cases hlk : st.local_cache.lookup key.index with
  | some body =>
      rw [hlk] at h1
      simp only [Except.ok.injEq, Prod.mk.injEq] at h1
      obtain ⟨hb1, hst1, hc1⟩ := h1
      rw [← hst1, hlk] at h2
      simp only [Except.ok.injEq, Prod.mk.injEq] at h2
      obtain ⟨hb2, hst2, hc2⟩ := h2
      refine ⟨fun hnone => absurd hnone (by simp), ?_, ?_, ?_⟩
      · rw [← hc2]
      · rw [← hb2, ← hb1]
      · rw [← hst2, hst1]
  | none =>
      rw [hlk] at h1
      cases hr : CachedBody.retrieve tcx key.index with
      | none =>
          rw [hr] at h1
          exact absurd h1 (by simp)
      | some res =>
          rw [hr] at h1
          simp only [Except.ok.injEq, Prod.mk.injEq] at h1
          obtain ⟨hb1, hst1, hc1⟩ := h1
          rw [← hst1] at h2
          simp only [List.lookup, beq_self_eq_true] at h2
          simp only [Except.ok.injEq, Prod.mk.injEq] at h2
          obtain ⟨hb2, hst2, hc2⟩ := h2
          refine ⟨fun _ => by rw [← hc1], ?_, ?_, ?_⟩
          · rw [← hc2]
          · rw [← hb2, ← hb1]
          · rw [← hst2, hst1]

/-- C2: from a state that has not yet loaded a foreign crate, a first
`get` for an item of that crate decodes its bundle exactly once; a
second `get` for any item of the same crate decodes nothing and leaves
the state untouched, and no later successful `get` (for any key) changes
or evicts that crate's loaded bundle. -/
theorem get_foreign_load_once (tcx : TyCtxt) (st : CacheState) (k1 k2 : DefId)
    (hk : k2.krate = k1.krate) (hf : k1.krate ≠ LOCAL_CRATE)
    (hmiss : st.cache.lookup k1.krate = none)
    (b1 b2 : CachedBody) (st1 st2 : CacheState) (c1 c2 : Counters)
    (h1 : BodyCache.get tcx st k1 = Except.ok (b1, st1, c1))
    (h2 : BodyCache.get tcx st1 k2 = Except.ok (b2, st2, c2)) :
    c1.decodes = 1 ∧ c2.decodes = 0 ∧ st2 = st1 ∧
    (∀ k3 b3 st3 c3, BodyCache.get tcx st1 k3 = Except.ok (b3, st3, c3) →
      st3.cache.lookup k1.krate = st1.cache.lookup k1.krate) := by
  rw [get_foreign_eq tcx st k1 hf] at h1
  simp only [hmiss] at h1
  cases hload : load_body_and_facts tcx k1.krate with
  | error e =>
      simp only [hload] at h1
      exact absurd h1 (by simp)
  | ok bodies =>
      simp only [hload] at h1
      cases hb1 : bodies.lookup k1.index with
      | none =>
          simp only [hb1] at h1
          exact absurd h1 (by simp)
      | some body1 =>
          simp only [hb1] at h1
          simp only [Except.ok.injEq, Prod.mk.injEq] at h1
          obtain ⟨hbody1, hst1, hc1⟩ := h1
          have hlookup1 : st1.cache.lookup k1.krate = some bodies := by
            rw [← hst1]
            simp [List.lookup, beq_self_eq_true]
          have hf2 : k2.krate ≠ LOCAL_CRATE := by rw [hk]; exact hf
          rw [get_foreign_eq tcx st1 k2 hf2, hk] at h2
          simp only [hlookup1] at h2
          cases hb2 : bodies.lookup k2.index with
          | none =>
              simp only [hb2] at h2
              exact absurd h2 (by simp)
          | some body2 =>
              simp only [hb2] at h2
              simp only [Except.ok.injEq, Prod.mk.injEq] at h2
              obtain ⟨hbody2, hst2, hc2⟩ := h2
              refine ⟨by rw [← hc1], by rw [← hc2], hst2.symm, ?_⟩
              intro k3 b3 st3 c3 h3
              by_cases hk3 : k3.krate = LOCAL_CRATE
              · rw [get_local_eq tcx st1 k3 hk3] at h3
                cases hlk3 : st1.local_cache.lookup k3.index with
                | some body3 =>
                    simp only [hlk3] at h3
                    simp only [Except.ok.injEq, Prod.mk.injEq] at h3
                    rw [← h3.2.1]
                | none =>
                    simp only [hlk3] at h3
                    cases hr3 : CachedBody.retrieve tcx k3.index with
                    | none =>
                        simp only [hr3] at h3
                        exact absurd h3 (by simp)
                    | some res3 =>
                        simp only [hr3] at h3
                        simp only [Except.ok.injEq, Prod.mk.injEq] at h3
                        rw [← h3.2.1]
              · rw [get_foreign_eq tcx st1 k3 hk3] at h3
                cases hck3 : st1.cache.lookup k3.krate with
                | some bodies3 =>
                    cases hb3 : bodies3.lookup k3.index with
                    | some body3 =>
                        simp only [hck3, hb3] at h3
                        simp only [Except.ok.injEq, Prod.mk.injEq] at h3
                        rw [← h3.2.1]
                    | none =>
                        simp only [hck3, hb3] at h3
                        exact absurd h3 (by simp)
                | none =>
                    cases hload3 : load_body_and_facts tcx k3.krate with
                    | error e3 =>
                        simp only [hck3, hload3] at h3
                        exact absurd h3 (by simp)
                    | ok bodies3 =>
                        cases hb3 : bodies3.lookup k3.index with
                        | none =>
                            simp only [hck3, hload3, hb3] at h3
                            exact absurd h3 (by simp)
                        | some body3 =>
                            simp only [hck3, hload3, hb3] at h3
                            simp only [Except.ok.injEq, Prod.mk.injEq] at h3
                            rw [← h3.2.1]
                            have hne : (k1.krate == k3.krate) = false := by
                              rw [beq_eq_false_iff_ne]
                              intro heq
                              rw [heq, hck3] at hlookup1
                              exact absurd hlookup1 (by simp)
                            simp [List.lookup, hne]

/-- C10: the two cache tiers do not interfere: a successful `get` for a
foreign item leaves the local cache and the retrieval timer unchanged
and never runs the borrowck engine; a successful `get` for a local item
leaves the foreign cache unchanged and touches no file (no existence
probe, no decode). -/
theorem get_tiers_frame (tcx : TyCtxt) (st : CacheState) (key : DefId)
    (b : CachedBody) (st' : CacheState) (c : Counters)
    (h : BodyCache.get tcx st key = Except.ok (b, st', c)) :
    (key.krate ≠ LOCAL_CRATE →
      st'.local_cache = st.local_cache ∧ st'.timer = st.timer ∧ c.retrievals = 0) ∧
    (key.krate = LOCAL_CRATE →
      st'.cache = st.cache ∧ c.decodes = 0 ∧ c.probes = 0) := by
  by_cases hk : key.krate = LOCAL_CRATE
  · refine ⟨fun hne => absurd hk hne, fun _ => ?_⟩
    rw [get_local_eq tcx st key hk] at h
    cases hlk : st.local_cache.lookup key.index with
    | some body =>
        simp only [hlk] at h
        simp only [Except.ok.injEq, Prod.mk.injEq] at h
        obtain ⟨-, hst, hc⟩ := h
        rw [← hst, ← hc]
        exact ⟨rfl, rfl, rfl⟩
    | none =>
        simp only [hlk] at h
        cases hr : CachedBody.retrieve tcx key.index with
        | none =>
            simp only [hr] at h
            exact absurd h (by simp)
        | some res =>
            simp only [hr] at h
            simp only [Except.ok.injEq, Prod.mk.injEq] at h
            obtain ⟨-, hst, hc⟩ := h
            rw [← hst, ← hc]
            exact ⟨rfl, rfl, rfl⟩
  · refine ⟨fun _ => ?_, fun heq => absurd heq hk⟩
    rw [get_foreign_eq tcx st key hk] at h
    cases hck : st.cache.lookup key.krate with
    | some bodies =>
        cases hb : bodies.lookup key.index with
        | some body =>
            simp only [hck, hb] at h
            simp only [Except.ok.injEq, Prod.mk.injEq] at h
            obtain ⟨-, hst, hc⟩ := h
            rw [← hst, ← hc]
            exact ⟨rfl, rfl, rfl⟩
        | none =>
            simp only [hck, hb] at h
            exact absurd h (by simp)
    | none =>
        cases hload : load_body_and_facts tcx key.krate with
        | error e =>
            simp only [hck, hload] at h
            exact absurd h (by simp)
        | ok bodies =>
            cases hb : bodies.lookup key.index with
            | none =>
                simp only [hck, hload, hb] at h
                exact absurd h (by simp)
            | some body =>
                simp only [hck, hload, hb] at h
                simp only [Except.ok.injEq, Prod.mk.injEq] at h
                obtain ⟨-, hst, hc⟩ := h
                rw [← hst, ← hc]
                exact ⟨rfl, rfl, rfl⟩

/-! ### Concrete sample environments for witnesses -/

/-- Raw borrowck facts of the sample item. -/
def sampleRaw : PoloniusInput := { subset_base := [(1, 2, 7), (3, 4, 8), (1, 2, 9)] }

/-- A sample un-sanitized body: one scope with set local data, one block
with a fake read and an ordinary statement. -/
def sampleBody : Body :=
  { source_scopes := [{ span := 0, parent_scope := none,
                        local_data := ClearCrossCrate.Set 5 }],
    basic_blocks := [{ statements := [{ source_info := 0, kind := StatementKind.FakeRead 3 },
                                      { source_info := 1, kind := StatementKind.Other 7 }],
                       terminator := 2 }] }

/-- The engine output for the sample item. -/
def sampleBwf : BodyWithBorrowckFacts :=
  { body := sampleBody, input_facts := some sampleRaw }

/-- The artifact retrieval produces for the sample item. -/
def artifact0 : CachedBody :=
  { body := clean_undecodable_data_from_body sampleBody,
    input_facts := { subset_base := [(1, 2), (3, 4), (1, 2)] } }

/-- A host-reported extern location of the sample foreign crate. -/
def depPath : FsPath :=
  { dir := ['/', 'd'], fileName := ['d', 'e', 'p', '-', '1', '.', 'r', 'l', 'i', 'b'] }

/-- Two artifacts stored in the sample foreign bundle. -/
def cbA : CachedBody :=
  { body := { source_scopes := [], basic_blocks := [] },
    input_facts := { subset_base := [(1, 2)] } }

/-- Second artifact of the sample foreign bundle. -/
def cbB : CachedBody :=
  { body := { source_scopes := [], basic_blocks := [] },
    input_facts := { subset_base := [] } }

/-- The sample foreign crate's bundle: items 0 and 1. -/
def sampleBundle : BodyMap := [(0, cbA), (1, cbB)]

/-- A sample host environment where the engine succeeds and crate 5's
bundle sits at its rewritten extern path. -/
def tcx0 : TyCtxt :=
  { engine := fun _ => sampleBwf,
    retrieveElapsed := fun _ => 3,
    crate_extern_paths := fun _ => [depPath],
    defaultStem := ['f', 'o', 'o', '-', 'a', 'b', 'c'],
    outDir := ['/', 'o'],
    fileExists := fun p => p == depPath.with_extension INTERMEDIATE_ARTIFACT_EXT,
    decodeFile := fun p =>
      if p == depPath.with_extension INTERMEDIATE_ARTIFACT_EXT then some sampleBundle
      else none }

/-- Like `tcx0` but the engine produces no facts. -/
def tcxNone : TyCtxt := { tcx0 with engine := fun _ => { body := sampleBody, input_facts := none } }

/-- Like `tcx0` but no candidate file exists. -/
def tcxNoFile : TyCtxt := { tcx0 with fileExists := fun _ => false }

/-- The local key of the sample item. -/
def localKey0 : DefId := { krate := LOCAL_CRATE, index := 0 }

/-- Cache state after retrieving the sample local item once. -/
def stAfterLocal : CacheState :=
  { cache := [], local_cache := [(0, artifact0)], timer := 3 }

/-- Cache state after loading the sample foreign crate's bundle. -/
def stForeign1 : CacheState :=
  { cache := [(5, sampleBundle)], local_cache := [], timer := 0 }

/-! ### Witnesses -/

/-- Witness for C1 at the sample local item from a fresh cache. -/
theorem get_local_memoized_witness :
    BodyCache.get tcx0 CacheState.new localKey0 =
      Except.ok (artifact0, stAfterLocal, ⟨1, 0, 0⟩) ∧
    BodyCache.get tcx0 stAfterLocal localKey0 =
      Except.ok (artifact0, stAfterLocal, ⟨0, 0, 0⟩) ∧
    ((CacheState.new.local_cache.lookup localKey0.index = none →
        (⟨1, 0, 0⟩ : Counters).retrievals = 1) ∧
      (⟨0, 0, 0⟩ : Counters).retrievals = 0 ∧ artifact0 = artifact0 ∧
      stAfterLocal = stAfterLocal) :=
  ⟨rfl, rfl,
    get_local_memoized tcx0 CacheState.new localKey0 rfl artifact0 artifact0
      stAfterLocal stAfterLocal ⟨1, 0, 0⟩ ⟨0, 0, 0⟩ rfl rfl⟩

/-- Witness for C2 at two items of the sample foreign crate from a fresh
cache. -/
theorem get_foreign_load_once_witness :
    BodyCache.get tcx0 CacheState.new ⟨5, 0⟩ = Except.ok (cbA, stForeign1, ⟨0, 1, 1⟩) ∧
    BodyCache.get tcx0 stForeign1 ⟨5, 1⟩ = Except.ok (cbB, stForeign1, ⟨0, 0, 0⟩) ∧
    ((⟨0, 1, 1⟩ : Counters).decodes = 1 ∧ (⟨0, 0, 0⟩ : Counters).decodes = 0 ∧
      stForeign1 = stForeign1 ∧
      (∀ k3 b3 st3 c3, BodyCache.get tcx0 stForeign1 k3 = Except.ok (b3, st3, c3) →
        st3.cache.lookup (5 : Nat) = stForeign1.cache.lookup (5 : Nat))) :=
  ⟨rfl, rfl,
    get_foreign_load_once tcx0 CacheState.new ⟨5, 0⟩ ⟨5, 1⟩ rfl (by decide) rfl
      cbA cbB stForeign1 stForeign1 ⟨0, 1, 1⟩ ⟨0, 0, 0⟩ rfl rfl⟩

/-- Witness for C3 at the sample item's raw facts. -/
theorem retrieve_fact_projection_witness :
    (tcx0.engine 0).input_facts = some sampleRaw ∧
    ∃ cb, CachedBody.retrieve tcx0 0 = some cb ∧
      cb.input_facts.subset_base = sampleRaw.subset_base.map (fun t => (t.1, t.2.1)) :=
  ⟨rfl, retrieve_fact_projection tcx0 0 sampleRaw rfl⟩

/-- Witness for C4 at the sample environment, for the local crate and a
foreign crate with one extern path. -/
theorem candidate_paths_witness :
    local_or_remote_paths LOCAL_CRATE tcx0 INTERMEDIATE_ARTIFACT_EXT =
      [intermediate_out_dir tcx0 INTERMEDIATE_ARTIFACT_EXT] ∧
    (local_or_remote_paths 5 tcx0 INTERMEDIATE_ARTIFACT_EXT).length =
      (tcx0.crate_extern_paths 5).length + 1 ∧
    (local_or_remote_paths 5 tcx0 INTERMEDIATE_ARTIFACT_EXT).get ⟨0, by decide⟩ =
      ((tcx0.crate_extern_paths 5).get ⟨0, by decide⟩).with_extension
        INTERMEDIATE_ARTIFACT_EXT ∧
    (local_or_remote_paths 5 tcx0 INTERMEDIATE_ARTIFACT_EXT).getLast? =
      some (intermediate_out_dir tcx0 INTERMEDIATE_ARTIFACT_EXT) :=
  ⟨(candidate_paths_spec LOCAL_CRATE tcx0 INTERMEDIATE_ARTIFACT_EXT).1 rfl,
   ((candidate_paths_spec 5 tcx0 INTERMEDIATE_ARTIFACT_EXT).2 (by decide)).1,
   ((candidate_paths_spec 5 tcx0 INTERMEDIATE_ARTIFACT_EXT).2 (by decide)).2.1 0
     (by decide) (by decide),
   ((candidate_paths_spec 5 tcx0 INTERMEDIATE_ARTIFACT_EXT).2 (by decide)).2.2⟩

/-- Witness for C7: the engine producing no facts makes retrieval fail,
and the sample artifact stems from the sample raw facts. -/
theorem retrieve_fatal_without_facts_witness :
    CachedBody.retrieve tcxNone 0 = none ∧
    ∃ raw, (tcx0.engine 0).input_facts = some raw ∧
      artifact0.input_facts.subset_base = projectSubsetBase raw.subset_base :=
  ⟨(retrieve_fatal_without_facts tcxNone 0).1 rfl,
   (retrieve_fatal_without_facts tcx0 0).2 artifact0 rfl⟩

/-- Witness for C8: the all-paths-missing abort, and a successful decode
of the first existing candidate. -/
theorem load_first_existing_or_fatal_witness :
    load_body_and_facts tcxNoFile 5 =
      Except.error (LoadError.noPathFound 5
        (local_or_remote_paths 5 tcxNoFile INTERMEDIATE_ARTIFACT_EXT)) ∧
    load_body_and_facts tcx0 5 = Except.ok sampleBundle :=
  ⟨(load_first_existing_or_fatal tcxNoFile 5).1 (by decide),
   (load_first_existing_or_fatal tcx0 5).2 0 (by decide) (by decide)
     (fun j hj => absurd hj (Nat.not_lt_zero j)) sampleBundle (by decide)⟩

/-- Witness for C9 at the sample body: block and scope shape preserved,
the fake read at position 0 of block 0 becomes a no-op. -/
theorem sanitizer_frame_witness :
    (clean_undecodable_data_from_body sampleBody).basic_blocks.length =
      sampleBody.basic_blocks.length ∧
    ((clean_undecodable_data_from_body sampleBody).basic_blocks.get
        ⟨0, by decide⟩).terminator =
      (sampleBody.basic_blocks.get ⟨0, by decide⟩).terminator ∧
    ((sampleBody.basic_blocks.get ⟨0, by decide⟩).statements.get
        ⟨0, by decide⟩).kind.isFakeRead = true ∧
    ((clean_undecodable_data_from_body sampleBody).basic_blocks.get
        ⟨0, by decide⟩).statements.get ⟨0, by decide⟩ =
      ((sampleBody.basic_blocks.get ⟨0, by decide⟩).statements.get
        ⟨0, by decide⟩).make_nop :=
  ⟨(sanitizer_frame sampleBody).1,
   ((sanitizer_frame sampleBody).2.2.1 0 (by decide) (by decide)).1,
   by decide,
   (((sanitizer_frame sampleBody).2.2.1 0 (by decide) (by decide)).2.2 0
     (by decide) (by decide)).1 (by decide)⟩

/-- Witness for C10 at one foreign and one local `get` from a fresh
cache. -/
theorem get_tiers_frame_witness :
    BodyCache.get tcx0 CacheState.new ⟨5, 0⟩ = Except.ok (cbA, stForeign1, ⟨0, 1, 1⟩) ∧
    BodyCache.get tcx0 CacheState.new localKey0 =
      Except.ok (artifact0, stAfterLocal, ⟨1, 0, 0⟩) ∧
    (stForeign1.local_cache = CacheState.new.local_cache ∧
      stForeign1.timer = CacheState.new.timer ∧
      (⟨0, 1, 1⟩ : Counters).retrievals = 0) ∧
    (stAfterLocal.cache = CacheState.new.cache ∧
      (⟨1, 0, 0⟩ : Counters).decodes = 0 ∧ (⟨1, 0, 0⟩ : Counters).probes = 0) :=
  ⟨rfl, rfl,
   (get_tiers_frame tcx0 CacheState.new ⟨5, 0⟩ cbA stForeign1 ⟨0, 1, 1⟩ rfl).1
     (by decide),
   (get_tiers_frame tcx0 CacheState.new localKey0 artifact0 stAfterLocal
     ⟨1, 0, 0⟩ rfl).2 rfl⟩

end BodyCacheModel
